import Mathlib

/-!
Verification model of the ticket/appeal bot (`src/bot.py`).

Texts (Python `str` values such as channel topics and embed footers) are
modelled as `List Char`.  The Python string primitives the source relies on
(`in`, `startswith`, `split`, `strip`, `int`) are modelled below and the
bot's functions are translated on top of them.
-/

abbrev Text := List Char

/-- Coerce a Lean string literal to the `List Char` text representation. -/
def strT (s : String) : Text := s.data

/-- Model of the Python substring test `pat in s`. -/
def containsB (pat : Text) : Text → Bool
  | [] => pat.isEmpty
  | c :: rest => List.isPrefixOf pat (c :: rest) || containsB pat rest

/-- Model of Python `s.startswith(pat)`. -/
def startsWithB (pat s : Text) : Bool := List.isPrefixOf pat s

/-- Auxiliary accumulator loop for `pySplitChar`. -/
def pySplitCharAux (sep : Char) : Text → Text → List Text
  | [], acc => [acc.reverse]
  | c :: rest, acc =>
    if c = sep then acc.reverse :: pySplitCharAux sep rest []
    else pySplitCharAux sep rest (c :: acc)

/-- Model of Python `s.split(sep)` for a single-character separator:
splits at every occurrence, keeping empty pieces. -/
def pySplitChar (sep : Char) (s : Text) : List Text := pySplitCharAux sep s []

/-- Auxiliary accumulator loop for `pySplitSeq` (separator = `c0 :: sepRest`).
The fuel argument keeps the recursion structural; every step consumes at
least one character, so fuel = input length never runs out. -/
def pySplitSeqAux (c0 : Char) (sepRest : Text) : Nat → Text → Text → List Text
  | _, [], acc => [acc.reverse]
  | 0, s, acc => [acc.reverse ++ s]
  | fuel + 1, c :: rest, acc =>
    if c = c0 ∧ List.isPrefixOf sepRest rest then
      acc.reverse :: pySplitSeqAux c0 sepRest fuel (rest.drop sepRest.length) []
    else pySplitSeqAux c0 sepRest fuel rest (c :: acc)

/-- Model of Python `s.split(sep)` for a non-empty multi-character separator. -/
def pySplitSeq (sep : Text) (s : Text) : List Text :=
  match sep with
  | [] => [s]
  | c :: r => pySplitSeqAux c r s.length s []

/-- Model of Python `s.split(sep)[-1]` (the text after the last occurrence
of `sep`; the whole of `s` when `sep` does not occur). -/
def afterLastSplit (sep s : Text) : Text := (pySplitSeq sep s).getLastD []

/-- Model of Python `s.strip()` restricted to the space character (the only
whitespace occurring in the bot's topic strings). -/
def pyStrip (s : Text) : Text :=
  (List.dropWhile (fun c => c = ' ') ((List.dropWhile (fun c => c = ' ') s).reverse)).reverse

/-- Numeric value of a digit string. -/
def digitsVal (s : Text) : Nat := s.foldl (fun n c => n * 10 + (c.toNat - 48)) 0

/-- Model of Python `int(s)` for the non-negative id strings the bot parses
out of topics and footers: succeeds exactly on non-empty all-digit input. -/
def pyIntNat (s : Text) : Option Nat :=
  if s ≠ [] ∧ s.all Char.isDigit then some (digitsVal s) else none

/-- The character for the decimal digit `n` (`0 ≤ n ≤ 9`). -/
def digitChar (n : Nat) : Char := Char.ofNat (48 + n)

/-- Decimal digit list of `n`, most significant first; the fuel argument
(always at least the number of digits) keeps the recursion structural. -/
def natDigitsCore : Nat → Nat → Text
  | 0, _ => []
  | fuel + 1, n =>
    if n < 10 then [digitChar n]
    else natDigitsCore fuel (n / 10) ++ [digitChar (n % 10)]

/-- Decimal rendering of a natural number, as used by Python f-strings. -/
def natDigits (n : Nat) : Text := natDigitsCore (n + 1) n

-- the marker substrings used in channel topics (bot.py lines 266, 1290-1300)

/-- The claim marker prefix `claimed-by-`. -/
def claimMarker : Text := strT ("claimed-by-")

/-- The owner marker prefix `ticket-user-`. -/
def ownerMarkerHead : Text := strT ("ticket-user-")

/-- Owner marker `ticket-user-<id>` for a given member id. -/
def ownerMarker (userId : Nat) : Text := ownerMarkerHead ++ natDigits userId

/-- Type marker `type-<typeTag>` for a given ticket type tag. -/
def typeMarker (t : Text) : Text := strT ("type-") ++ t

/-- The topic string written by `create_ticket_channel` (bot.py line 266):
`Ticket for <name> (<id>). Type: <type>. Do not modify 'ticket-user-ID'.
ticket-user-<id> type-<type>`. -/
def creationTopic (userName : Text) (userId : Nat) (ticketType : Text) : Text :=
  strT ("Ticket for ") ++ userName ++ strT (" (") ++ natDigits userId ++
  strT ("). Type: ") ++ ticketType ++
  strT (". Do not modify \x27ticket-user-ID\x27. ") ++
  ownerMarker userId ++ strT (" ") ++ typeMarker ticketType

/-- Result of the `/ticket claim` command (`ticket_claim`, bot.py 1284-1306). -/
inductive ClaimRes
  | alreadyClaimed
  | claimed
  deriving DecidableEq, Repr

/-- Topic transformation performed by `ticket_claim` (bot.py 1287-1306).
The command is reachable only for staff (`is_staff_check`) inside a ticket
channel (`in_ticket_channel_check`); those gates are modelled in `claimOp`.
Returns the response together with the (possibly updated) topic. -/
def ticket_claim (chanId actorId : Nat) (topic : Text) : ClaimRes × Text :=
  if containsB claimMarker topic then (.alreadyClaimed, topic)
  else
    let parts := pySplitChar ' ' topic
    let part0 := parts.headD []
    let typeTopic : Text :=
      match parts.get? 1 with
      | some p => if startsWithB (strT ("type-")) p then p else []
      | none => []
    let base : Text :=
      if startsWithB ownerMarkerHead part0 then part0
      else ownerMarkerHead ++ natDigits chanId
    let newTopic :=
      pyStrip (base ++ strT (" ") ++ typeTopic ++ strT (" claimed-by-") ++ natDigits actorId)
    (.claimed, newTopic)

/-- Result of the `/ticket unclaim` command (`ticket_unclaim`, bot.py 1308-1337). -/
inductive UnclaimRes
  | notClaimed
  | claimerUnparseable
  | permissionDenied
  | unclaimed
  deriving DecidableEq, Repr

/-- The claimer id string extracted by `ticket_unclaim`
(`current_topic.split("claimed-by-")[-1].split(" ")[0]`, bot.py 1317). -/
def claimerIdStr (topic : Text) : Text :=
  (pySplitChar ' ' (afterLastSplit claimMarker topic)).headD []

/-- Topic transformation performed by `ticket_unclaim` (bot.py 1311-1337);
staff and ticket-channel gates are modelled in `unclaimOp`.  `isAdmin` is
`interaction.user.guild_permissions.administrator`. -/
def ticket_unclaim (chanId actorId : Nat) (isAdmin : Bool) (topic : Text) :
    UnclaimRes × Text :=
  if ¬ containsB claimMarker topic then (.notClaimed, topic)
  else
    match pyIntNat (claimerIdStr topic) with
    | none => (.claimerUnparseable, topic)
    | some claimerId =>
      if actorId ≠ claimerId ∧ ¬ isAdmin then (.permissionDenied, topic)
      else
        let parts := pySplitChar ' ' topic
        let part0 := parts.headD []
        let base : Text :=
          if startsWithB ownerMarkerHead part0 then part0
          else ownerMarkerHead ++ natDigits chanId
        let typeTopic : Text :=
          match parts.get? 1 with
          | some p => if startsWithB (strT ("type-")) p then p else []
          | none => []
        (.unclaimed, pyStrip (base ++ strT (" ") ++ typeTopic))

/-!
Guild state machine: channels, settings, and the ticket lifecycle
operations (panel button press / claim / unclaim / close).
-/

/-- One text channel of the workspace.  `topic` is the metadata string;
`inTicketCat` tells whether the channel currently lives in the ticket
category (open) or was moved to the archive category (closed).
`ghostOwner`/`ghostType` record, for specification purposes only, the
member who opened the ticket and its immutable type tag (spec section 3);
the bot itself never reads them. -/
structure Chan where
  cid : Nat
  topic : Text
  inTicketCat : Bool
  ghostOwner : Nat
  ghostType : Text
  deriving DecidableEq, Repr

/-- Per-guild settings relevant to the modelled operations; a `some` id
means the setting is configured and resolves to a live object. -/
structure Config where
  panelChannel : Option Nat
  ticketCategory : Option Nat
  archiveCategory : Option Nat
  staffRole : Option Nat
  appealChannel : Option Nat
  deriving DecidableEq, Repr

/-- The four settings demanded by `TicketPanelView.interaction_check`
(bot.py 663-667). -/
def Config.complete (cfg : Config) : Bool :=
  cfg.panelChannel.isSome && cfg.ticketCategory.isSome &&
  cfg.archiveCategory.isSome && cfg.staffRole.isSome

/-- Blacklist map `member id → reason`, modelled as an association list. -/
abbrev Blacklist := List (Nat × Text)

/-- Lookup in the blacklist map (`user_id_str in blacklist`, bot.py 655). -/
def blacklistLookup (bl : Blacklist) (userId : Nat) : Option Text :=
  match bl.find? (fun p => p.1 == userId) with
  | some p => some p.2
  | none => none

/-- Mutable per-guild state touched by the modelled operations. -/
structure GuildState where
  chans : List Chan
  counter : Nat
  blacklist : Blacklist
  nextChanId : Nat
  deriving DecidableEq, Repr

/-- Predicate used by `count_user_tickets` on one channel (bot.py 230-234):
the channel topic must contain the member's owner marker, and the requested
type marker when a type is given. -/
def chanCounted (userId : Nat) (ticketType : Option Text) (ch : Chan) : Bool :=
  ch.inTicketCat && containsB (ownerMarker userId) ch.topic &&
    (match ticketType with
     | some t => containsB (typeMarker t) ch.topic
     | none => true)

/-- Model of `count_user_tickets` (bot.py 223-235): linear scan over the
text channels of the ticket category. -/
def count_user_tickets (st : GuildState) (userId : Nat) (ticketType : Option Text) : Nat :=
  st.chans.countP (chanCounted userId ticketType)

/-- Outcome of a ticket-panel button press, including the pre-checks of
`TicketPanelView.interaction_check` and the button callback itself. -/
inductive PressRes
  | blacklistedAppeal (reason : Text)
  | systemOffline
  | setupError
  | limitReached
  | configError
  | created (cid : Nat)
  deriving DecidableEq, Repr

/-- The three creation buttons of the panel. -/
inductive BtnType
  | standard
  | tryout
  | report
  deriving DecidableEq, Repr

/-- The `TICKET_TYPE` constant of each button callback (bot.py 785, 812, 887). -/
def BtnType.typeName : BtnType → Text
  | .standard => strT ("ticket")
  | .tryout => strT ("tryout")
  | .report => strT ("report")

/-- The `LIMIT` constant of each button callback (bot.py 785, 812, 887). -/
def BtnType.limit : BtnType → Nat
  | .standard => 3
  | .tryout => 1
  | .report => 10

/-- Model of `create_ticket_channel` (bot.py 238-278): config checks, the
global `> 15` cap, counter read-modify-write, channel creation with the
encoded topic.  Channel name sanitisation and permission overwrites touch
no modelled state and are omitted. -/
def create_ticket_channel (cfg : Config) (st : GuildState) (userId : Nat)
    (userName : Text) (ticketTypeName : Text) : PressRes × GuildState :=
  if cfg.staffRole.isNone then (.configError, st)
  else if cfg.ticketCategory.isNone then (.configError, st)
  else if 15 < count_user_tickets st userId none then (.limitReached, st)
  else
    let ticketNum := st.counter
    let newChan : Chan :=
      { cid := st.nextChanId
        topic := creationTopic userName userId ticketTypeName
        inTicketCat := true
        ghostOwner := userId
        ghostType := ticketTypeName }
    (.created st.nextChanId,
      { st with
          counter := ticketNum + 1
          chans := st.chans ++ [newChan]
          nextChanId := st.nextChanId + 1 })

/-- One panel button press by `userId`:
`TicketPanelView.interaction_check` (blacklist gate then setup gate,
bot.py 634-669) followed by the button callback (bot.py 776-901), which
checks the per-type limit and calls `create_ticket_channel`.  A
`blacklistedAppeal` result carries the stored reason passed to the appeal
DM (`send_appeal_dm`). -/
def pressButton (cfg : Config) (st : GuildState) (btn : BtnType) (userId : Nat)
    (userName : Text) : PressRes × GuildState :=
  match blacklistLookup st.blacklist userId with
  | some reason => (.blacklistedAppeal reason, st)
  | none =>
    if ¬ cfg.complete then (.systemOffline, st)
    else if cfg.ticketCategory.isNone then (.setupError, st)
    else if btn.limit ≤ count_user_tickets st userId (some btn.typeName) then
      (.limitReached, st)
    else create_ticket_channel cfg st userId userName btn.typeName

/-- Find a channel by id. -/
def findChan (st : GuildState) (cid : Nat) : Option Chan :=
  st.chans.find? (fun ch => ch.cid == cid)

/-- Replace the topic of the channel with the given id. -/
def setTopic (st : GuildState) (cid : Nat) (t : Text) : GuildState :=
  { st with
      chans := st.chans.map (fun ch => if ch.cid == cid then { ch with topic := t } else ch) }

/-- Outcome of `/ticket claim` at state level. -/
inductive ClaimOpRes
  | invalidChannel
  | alreadyClaimed
  | claimed
  deriving DecidableEq, Repr

/-- `/ticket claim` on a channel: the `in_ticket_channel_check` gate
(bot.py 1217-1224) then `ticket_claim`; the actor is assumed to have
passed `is_staff_check`.  The topic is only edited in the success branch
(bot.py 1302-1303). -/
def claimOp (st : GuildState) (chanId actorId : Nat) : ClaimOpRes × GuildState :=
  match findChan st chanId with
  | none => (.invalidChannel, st)
  | some ch =>
    if ¬ ch.inTicketCat then (.invalidChannel, st)
    else
      match ticket_claim chanId actorId ch.topic with
      | (.alreadyClaimed, _) => (.alreadyClaimed, st)
      | (.claimed, t) => (.claimed, setTopic st chanId t)

/-- Outcome of `/ticket unclaim` at state level. -/
inductive UnclaimOpRes
  | invalidChannel
  | notClaimed
  | claimerUnparseable
  | permissionDenied
  | unclaimed
  deriving DecidableEq, Repr

/-- `/ticket unclaim` on a channel: channel gate then `ticket_unclaim`;
the actor is assumed staff.  The topic is only edited in the success
branch (bot.py 1333-1334). -/
def unclaimOp (st : GuildState) (chanId actorId : Nat) (isAdmin : Bool) :
    UnclaimOpRes × GuildState :=
  match findChan st chanId with
  | none => (.invalidChannel, st)
  | some ch =>
    if ¬ ch.inTicketCat then (.invalidChannel, st)
    else
      match ticket_unclaim chanId actorId isAdmin ch.topic with
      | (.notClaimed, _) => (.notClaimed, st)
      | (.claimerUnparseable, _) => (.claimerUnparseable, st)
      | (.permissionDenied, _) => (.permissionDenied, st)
      | (.unclaimed, t) => (.unclaimed, setTopic st chanId t)

/-- `close_ticket_logic` (bot.py 1028-1103) as far as guild state is
concerned: with a valid archive category the channel is moved out of the
ticket category (renaming, permission narrowing and the transcript post do
not affect the modelled state).  The close-permission gate
(creator-or-staff, bot.py 962-979) is assumed passed by the caller. -/
def close_ticket_logic (cfg : Config) (st : GuildState) (chanId : Nat) : GuildState :=
  if cfg.archiveCategory.isNone then st
  else
    { st with
        chans := st.chans.map (fun ch =>
          if ch.cid == chanId then { ch with inTicketCat := false } else ch) }

/-- The operations of the ticket lifecycle quantified over by the
reachability claims. -/
inductive Op
  | press (btn : BtnType) (userId : Nat) (userName : Text)
  | claim (chanId actorId : Nat)
  | unclaim (chanId actorId : Nat) (isAdmin : Bool)
  | close (chanId : Nat)

/-- Apply one operation to the state (responses discarded). -/
def runOp (cfg : Config) (st : GuildState) : Op → GuildState
  | .press btn userId userName => (pressButton cfg st btn userId userName).2
  | .claim chanId actorId => (claimOp st chanId actorId).2
  | .unclaim chanId actorId isAdmin => (unclaimOp st chanId actorId isAdmin).2
  | .close chanId => close_ticket_logic cfg st chanId

/-- Apply a sequence of operations. -/
def runOps (cfg : Config) (st : GuildState) (ops : List Op) : GuildState :=
  ops.foldl (runOp cfg) st

/-- Number of concurrently open tickets of type `t` truly owned by member
`m`: channels still in the ticket category that were created by `m` with
type tag `t` (the specification's notion of ownership, spec section 3). -/
def openOwnedCount (st : GuildState) (userId : Nat) (t : Text) : Nat :=
  st.chans.countP (fun ch => ch.inTicketCat && ch.ghostOwner == userId && ch.ghostType == t)

/-- A fully configured guild, used by the concrete traces. -/
def cfgAll : Config :=
  { panelChannel := some 1
    ticketCategory := some 2
    archiveCategory := some 3
    staffRole := some 4
    appealChannel := some 5 }

/-- Fresh guild state: no channels, counter 1, empty blacklist. -/
def initState : GuildState :=
  { chans := [], counter := 1, blacklist := [], nextChanId := 100 }

/-!
Concrete traces exhibiting the metadata-marker defect: claiming a freshly
created ticket rewrites its topic from the creation format to
`ticket-user-<channel id>  claimed-by-<staff id>`, losing the owner id and
the type marker, so the per-type limit scan no longer sees the ticket.
-/

/-- Member 42 opens three standard tickets, staff member 7 claims and then
unclaims the first one, then member 42 opens a fourth standard ticket. -/
def c1Trace : List Op :=
  [ .press .standard 42 (strT ("alice")),
    .press .standard 42 (strT ("alice")),
    .press .standard 42 (strT ("alice")),
    .claim 100 7,
    .unclaim 100 7 false,
    .press .standard 42 (strT ("alice")) ]

/-- The first five operations of `c1Trace`: member 42 already owns three
open standard tickets (one of them claimed and unclaimed once). -/
def c9PreTrace : List Op :=
  [ .press .standard 42 (strT ("alice")),
    .press .standard 42 (strT ("alice")),
    .press .standard 42 (strT ("alice")),
    .claim 100 7,
    .unclaim 100 7 false ]

/-- State after member 42 opened a standard ticket and staff member 7
claimed it. -/
def c3State : GuildState :=
  runOps cfgAll initState [ .press .standard 42 (strT ("alice")), .claim 100 7 ]

/-- The single channel of `c3State`. -/
def c3Chan : Chan :=
  { cid := 100
    topic := strT ("ticket-user-100  claimed-by-7")
    inTicketCat := true
    ghostOwner := 42
    ghostType := strT ("ticket") }

/-- A guild state whose blacklist contains member 42. -/
def c7State : GuildState :=
  { chans := [], counter := 1, blacklist := [(42, strT ("spamming staff"))], nextChanId := 100 }

/-- A guild state in which member 42 owns sixteen open tickets. -/
def c10State : GuildState :=
  { chans := (List.range 16).map (fun i =>
      { cid := 100 + i
        topic := creationTopic (strT ("alice")) 42 (strT ("report"))
        inTicketCat := true
        ghostOwner := 42
        ghostType := strT ("report") })
    counter := 17
    blacklist := []
    nextChanId := 116 }

/-- A claimed ticket channel in canonical topic format. -/
def c4Chan : Chan :=
  { cid := 100
    topic := strT ("ticket-user-42 type-ticket claimed-by-7")
    inTicketCat := true
    ghostOwner := 42
    ghostType := strT ("ticket") }

/-- A guild state containing `c4Chan`. -/
def c4State : GuildState :=
  { chans := [c4Chan], counter := 2, blacklist := [], nextChanId := 101 }

/-!
Review Gate (Approve button + AppealReasonModal) and the digit-string
lemmas needed to parse the Review Record footer for an arbitrary member.
-/

/-- A posted appeal Review Record as the Review Gate sees it: whether the
message still has its embed, the embed's footer text, and whether the
Approve/Reject controls are still attached. -/
structure Record where
  hasEmbeds : Bool
  footerText : Option Text
  controlsPresent : Bool
  deriving DecidableEq, Repr

/-- Outcome of the approve flow (interaction check + button + modal). -/
inductive ApproveRes
  | attributeError
  | noEmbeds
  | recordMalformed
  | actionComplete
  deriving DecidableEq, Repr

/-- Footer subject-id parse `int(embed.footer.text.split(": ")[1])`
(bot.py 417). -/
def parseFooterId (ft : Text) : Option Nat :=
  match (pySplitSeq (strT (": ")) ft).get? 1 with
  | none => none
  | some piece => pyIntNat piece

/-- Blacklist removal performed by `AppealReasonModal.on_submit` for
Approve (bot.py 350-353): delete the entry when present, otherwise leave
the map alone. -/
def removeBlacklistEntry (bl : Blacklist) (userId : Nat) : Blacklist :=
  bl.filter (fun p => p.1 != userId)

/-- The attributes assigned by `AppealReviewView.__init__` (bot.py 388-390):
only `bot` is ever set. -/
def appealReviewViewAttrs : List Text := [strT ("bot")]

/-- The attribute read by `AppealReviewView.interaction_check` (bot.py 395)
and by the `approve` callback (bot.py 413): `bot_ref`. -/
def appealReviewViewBotRead : Text := strT ("bot_ref")

/-- The approve flow on a Review Record.  The very first statement of both
`AppealReviewView.interaction_check` (bot.py 395) and the Approve callback
(bot.py 413) reads `self.bot_ref`, an attribute the constructor never
assigns (it sets `self.bot`, bot.py 390), so every press raises
AttributeError before any check runs.  Were that read to succeed, the
button would parse the subject id out of the footer (bot.py 411-420,
failing closed when the footer is missing, lacks `User ID:`, or does not
parse), and the modal submit would remove the blacklist entry and edit
the record, removing its controls and keeping its footer (bot.py
337-374). -/
def approveAppeal (rec : Record) (bl : Blacklist) : ApproveRes × Record × Blacklist :=
  if ¬ appealReviewViewAttrs.contains appealReviewViewBotRead then (.attributeError, rec, bl)
  else if ¬ rec.hasEmbeds then (.noEmbeds, rec, bl)
  else
    match rec.footerText with
    | none => (.recordMalformed, rec, bl)
    | some ft =>
      if ¬ containsB (strT ("User ID:")) ft then (.recordMalformed, rec, bl)
      else
        match parseFooterId ft with
        | none => (.recordMalformed, rec, bl)
        | some uid =>
          (.actionComplete, { rec with controlsPresent := false },
            removeBlacklistEntry bl uid)

/-- The Review Record posted by `ConfirmAppealView.submit` (bot.py 458-462):
an embed with footer `User ID: <id>` and live Approve/Reject controls. -/
def reviewRecord (userId : Nat) : Record :=
  { hasEmbeds := true
    footerText := some (strT ("User ID: ") ++ natDigits userId)
    controlsPresent := true }

/-!
Appeal Conversation Engine (`AppealStartView` / `ConfirmAppealView`).
-/

/-- One member message in the appeal DM: its content and attachment urls. -/
structure MsgEv where
  content : Text
  attachments : List Text
  deriving DecidableEq, Repr

/-- Outcome of one `bot.wait_for('message', ...)` call inside a question:
either the member's next message or the 600 s timeout. -/
inductive QEvent
  | msg (m : MsgEv)
  | timedOut
  deriving DecidableEq, Repr

/-- Model of `AppealStartView.ask_question` (bot.py 506-540): repeatedly
wait for the member's message; with `check_proof` any message is accepted
immediately; otherwise an answer shorter than `min_length` triggers an
inline re-prompt and another wait; a timeout (or an exhausted event
stream, i.e. a wait that never returns) yields no answer. -/
def ask_question (minLength : Nat) (checkProof : Bool) : List QEvent → Option MsgEv
  | [] => none
  | .timedOut :: _ => none
  | .msg m :: rest =>
    if checkProof then some m
    else if m.content.length < minLength then ask_question minLength checkProof rest
    else some m

/-- Python `"\n".join(urls)`. -/
def joinNL : List Text → Text
  | [] => []
  | [x] => x
  | x :: y :: xs => x ++ strT ("\n") ++ joinNL (y :: xs)

/-- Proof-answer post-processing of question 3 (bot.py 580-584). -/
def proofContent (m : MsgEv) : Text :=
  let p := if m.content ≠ [] then m.content else strT ("N/A")
  if m.attachments ≠ [] then
    if p ≠ strT ("N/A") then p ++ strT ("\n") ++ joinNL m.attachments
    else joinNL m.attachments
  else p

/-- The member's action at the Confirm step (`ConfirmAppealView`,
bot.py 434-498): press Submit, press Cancel, or let the view time out. -/
inductive ConfirmEvent
  | submitPressed
  | cancelPressed
  | confirmTimedOut
  deriving DecidableEq, Repr

/-- A submitted appeal as posted to the staff channel
(`ConfirmAppealView.submit`, bot.py 456-478). -/
structure AppealRecord where
  userId : Nat
  q1 : Text
  q2 : Text
  proof : Text
  footerText : Text
  deriving DecidableEq, Repr

/-- Outcome of one run of the appeal conversation. -/
inductive AppealOutcome
  | noRecord
  | crashedBeforePost
  | posted (r : AppealRecord)
  deriving DecidableEq, Repr

/-- The keyword used at the `AppealReviewView(...)` call site inside
`ConfirmAppealView.submit` (bot.py 465). -/
def reviewViewCallKeyword : Text := strT ("bot_instance")

/-- The parameter name accepted by `AppealReviewView.__init__`
(bot.py 388). -/
def reviewViewInitParam : Text := strT ("bot")

/-- Model of `ConfirmAppealView.submit` (bot.py 456-478): after building
the record embed, the callback constructs the review view via
`AppealReviewView(bot_instance=view_bot)` (line 465), but the constructor
signature is `__init__(self, bot)` (line 388); the keyword does not match
the parameter name, so the call raises TypeError before
`appeal_channel.send` on line 468 is reached and no Review Record is
posted (the cleanup on line 478 is skipped too). -/
def confirmSubmit (userId : Nat) (a1 a2 proof : Text) : AppealOutcome :=
  if reviewViewCallKeyword == reviewViewInitParam then
    .posted { userId := userId
              q1 := a1
              q2 := a2
              proof := proof
              footerText := strT ("User ID: ") ++ natDigits userId }
  else .crashedBeforePost

/-- Model of `AppealStartView.start_appeal` (bot.py 543-594) composed with
the Confirm step: the three questions run strictly in sequence, any
timeout/error aborts with cleanup and no record; reaching Confirm, Cancel
and the Confirm timeout only clean up, and a Submit press runs
`confirmSubmit`.  `appealChannelConfigured` models the `appeal_channel`
settings check (bot.py 560-563). -/
def start_appeal (appealChannelConfigured : Bool) (userId : Nat)
    (q1e q2e q3e : List QEvent) (conf : ConfirmEvent) : AppealOutcome :=
  if ¬ appealChannelConfigured then .noRecord
  else
    match ask_question 5 false q1e with
    | none => .noRecord
    | some a1 =>
      match ask_question 5 false q2e with
      | none => .noRecord
      | some a2 =>
        match ask_question 0 true q3e with
        | none => .noRecord
        | some a3 =>
          match conf with
          | .submitPressed => confirmSubmit userId a1.content a2.content (proofContent a3)
          | .cancelPressed => .noRecord
          | .confirmTimedOut => .noRecord

/-- Question events for the C6 witness: one valid answer each. -/
def c6q1 : List QEvent := [.msg { content := strT ("too harsh"), attachments := [] }]

/-- Second question events for the C6 witness. -/
def c6q2 : List QEvent := [.msg { content := strT ("will behave"), attachments := [] }]

/-- Third (proof) question events for the C6 witness. -/
def c6q3 : List QEvent := [.msg { content := strT ("N/A"), attachments := [] }]

/-!
Transcript Generator (`generate_transcript`, bot.py 282-319): UTF-8
byte-level model.  Bytes and code points are naturals.
-/

/-- UTF-8 encoding of one code point (1 to 4 bytes by range). -/
def utf8EncodeCp (c : Nat) : List Nat :=
  if c < 0x80 then [c]
  else if c < 0x800 then [0xC0 + c / 64, 0x80 + c % 64]
  else if c < 0x10000 then [0xE0 + c / 4096, 0x80 + (c / 64) % 64, 0x80 + c % 64]
  else [0xF0 + c / 0x40000, 0x80 + (c / 4096) % 64, 0x80 + (c / 64) % 64, 0x80 + c % 64]

/-- UTF-8 encoding of a code-point sequence. -/
def utf8Cps : List Nat → List Nat
  | [] => []
  | c :: cs => utf8EncodeCp c ++ utf8Cps cs

/-- Code points of a text. -/
def textCps (s : Text) : List Nat := s.map Char.toNat

/-- Model of Python `s.encode('utf-8')`. -/
def utf8Text (s : Text) : List Nat := utf8Cps (textCps s)

/-- A Unicode scalar value (what a Python `str` character is). -/
def ScalarValue (c : Nat) : Prop := c < 0xD800 ∨ (0xE000 ≤ c ∧ c < 0x110000)

/-- A byte string is valid UTF-8 when it encodes some scalar-value
sequence. -/
def IsValidUtf8 (bs : List Nat) : Prop :=
  ∃ cps, (∀ c ∈ cps, ScalarValue c) ∧ utf8Cps cps = bs

/-- Model of Python `bytes.decode('utf-8', errors='ignore')`, returning
code points: well-formed sequences (no overlongs, no surrogates, at most
U+10FFFF) are decoded, offending bytes are dropped.  The fuel argument
(at least the byte count at every call) keeps the recursion structural. -/
def decodeIgnoreF : Nat → List Nat → List Nat
  | _, [] => []
  | 0, _ => []
  | fuel + 1, b1 :: rest =>
    if b1 < 0x80 then b1 :: decodeIgnoreF fuel rest
    else if b1 < 0xC2 then decodeIgnoreF fuel rest
    else if b1 < 0xE0 then
      match rest with
      | b2 :: rest2 =>
        if 0x80 ≤ b2 ∧ b2 < 0xC0 then
          ((b1 - 0xC0) * 64 + (b2 - 0x80)) :: decodeIgnoreF fuel rest2
        else decodeIgnoreF fuel rest
      | [] => []
    else if b1 < 0xF0 then
      match rest with
      | b2 :: b3 :: rest3 =>
        if (0x80 ≤ b2 ∧ b2 < 0xC0) ∧ (0x80 ≤ b3 ∧ b3 < 0xC0) then
          if (b1 - 0xE0) * 4096 + (b2 - 0x80) * 64 + (b3 - 0x80) < 0x800 ∨
             (0xD800 ≤ (b1 - 0xE0) * 4096 + (b2 - 0x80) * 64 + (b3 - 0x80) ∧
              (b1 - 0xE0) * 4096 + (b2 - 0x80) * 64 + (b3 - 0x80) < 0xE000) then
            decodeIgnoreF fuel rest
          else
            ((b1 - 0xE0) * 4096 + (b2 - 0x80) * 64 + (b3 - 0x80)) :: decodeIgnoreF fuel rest3
        else decodeIgnoreF fuel rest
      | _ => decodeIgnoreF fuel rest
    else if b1 < 0xF5 then
      match rest with
      | b2 :: b3 :: b4 :: rest4 =>
        if (0x80 ≤ b2 ∧ b2 < 0xC0) ∧ (0x80 ≤ b3 ∧ b3 < 0xC0) ∧ (0x80 ≤ b4 ∧ b4 < 0xC0) then
          if (b1 - 0xF0) * 0x40000 + (b2 - 0x80) * 4096 + (b3 - 0x80) * 64 + (b4 - 0x80)
               < 0x10000 ∨
             0x110000 ≤ (b1 - 0xF0) * 0x40000 + (b2 - 0x80) * 4096 + (b3 - 0x80) * 64 +
               (b4 - 0x80) then
            decodeIgnoreF fuel rest
          else
            ((b1 - 0xF0) * 0x40000 + (b2 - 0x80) * 4096 + (b3 - 0x80) * 64 + (b4 - 0x80)) ::
              decodeIgnoreF fuel rest4
        else decodeIgnoreF fuel rest
      | _ => decodeIgnoreF fuel rest
    else decodeIgnoreF fuel rest

/-- Model of Python `bytes.decode('utf-8', errors='ignore')`. -/
def decodeIgnore (bs : List Nat) : List Nat := decodeIgnoreF bs.length bs

/-- One message of the channel history as the transcript walk sees it.
`content` stands for the already-sanitized text: the sanitizers
(`discord.utils.escape_mentions` / `remove_markdown`, bot.py 289) live in
the external discord library and no claim depends on their action. -/
structure TMsg where
  timestamp : Text
  authorName : Text
  authorId : Nat
  isBot : Bool
  content : Text
  attachments : List Text

/-- `author_display` (bot.py 290). -/
def authorDisplay (m : TMsg) : Text :=
  m.authorName ++ strT (" (") ++ natDigits m.authorId ++ strT (")")

/-- The transcript lines contributed by one message (bot.py 291-296): a
content line for non-bot messages, plus one line per attachment. -/
def msgLines (m : TMsg) : List Text :=
  (if m.isBot then []
   else [strT ("[") ++ m.timestamp ++ strT ("] ") ++ authorDisplay m ++ strT (": ") ++
     m.content]) ++
  m.attachments.map (fun a =>
    strT ("[") ++ m.timestamp ++ strT ("] [Attachment from ") ++ authorDisplay m ++
      strT (": ") ++ a ++ strT ("]"))

/-- The transcript text before encoding (bot.py 298-300): newline-joined
lines, or the fixed placeholder for an empty history. -/
def transcriptText (msgs : List TMsg) : Text :=
  let t := joinNL ((msgs.map msgLines).flatten)
  if t = [] then strT ("No messages were sent in this ticket.") else t

/-- The size cap `7 * 1024 * 1024 + 512 * 1024` (bot.py 305). -/
def maxTranscriptBytes : Nat := 7 * 1024 * 1024 + 512 * 1024

/-- The truncation marker line actually appended by the code (bot.py 313). -/
def truncationMarkerLine : Text := strT ("--- TRANSCRIPT TRUNCATED DUE TO SIZE LIMIT ---")

/-- The marker line the specification quotes. -/
def specMarkerLine : Text := strT ("--- TRANSCRIPT TRUNCATED ---")

/-- The full appended notice `"\n\n--- TRANSCRIPT TRUNCATED DUE TO SIZE
LIMIT ---"` (bot.py 313). -/
def truncationNotice : Text := strT ("\n\n") ++ truncationMarkerLine

/-- Model of `generate_transcript` (bot.py 282-319): encode the transcript
text; if it exceeds the cap, hard-truncate the bytes at `cap - 200`,
decode leniently, append the truncation notice and re-encode. -/
def generate_transcript (msgs : List TMsg) : List Nat :=
  let encoded := utf8Text (transcriptText msgs)
  if maxTranscriptBytes < encoded.length then
    utf8Cps (decodeIgnore (encoded.take (maxTranscriptBytes - 200)) ++ textCps truncationNotice)
  else encoded

set_option maxRecDepth 4000

/-- The single oversized message used to exercise the truncation branch. -/
def bigTicketMsg : TMsg :=
  { timestamp := strT ("2025-01-01 00:00:00 UTC")
    authorName := strT ("alice")
    authorId := 42
    isBot := false
    content := List.replicate 8000000 'a'
    attachments := [] }

/-- The fixed line header preceding the oversized content. -/
def bigLinePrefix : Text := strT ("[2025-01-01 00:00:00 UTC] alice (42): ")

/-- Claim C1: the per-type open-ticket limit is an invariant of every
reachable state.  REFUTED on the code: after `c1Trace` member 42 owns four
concurrently open standard tickets, exceeding the configured limit 3 —
the claim/unclaim round trip rewrote one topic so that
`count_user_tickets` no longer attributes that ticket to member 42. -/
theorem C1_limit_invariant_fails_on_trace :
    openOwnedCount (runOps cfgAll initState c1Trace) 42 (BtnType.standard.typeName) = 4 ∧
    BtnType.standard.limit < 4 := by
  decide

/-- Claim C2: after a Claim operation the metadata still carries the
original owner marker and the type marker.  REFUTED on the code: claiming
the ticket created for member 42 (channel 100, type `ticket`) succeeds but
the new topic contains neither `ticket-user-42` nor `type-ticket`. -/
theorem C2_claim_loses_markers :
    (ticket_claim 100 7 (creationTopic (strT ("alice")) 42 (strT ("ticket")))).1 = ClaimRes.claimed ∧
    (ticket_claim 100 7 (creationTopic (strT ("alice")) 42 (strT ("ticket")))).2 =
      strT ("ticket-user-100  claimed-by-7") ∧
    containsB (ownerMarker 42)
      (ticket_claim 100 7 (creationTopic (strT ("alice")) 42 (strT ("ticket")))).2 = false ∧
    containsB (typeMarker (strT ("ticket")))
      (ticket_claim 100 7 (creationTopic (strT ("alice")) 42 (strT ("ticket")))).2 = false := by
  decide

/-- Claim C3: a second Claim on an already-claimed ticket returns
AlreadyClaimed and changes nothing: for every guild state, if the target
channel is a ticket channel whose topic contains the claim marker, any
staff actor's claim returns `alreadyClaimed` and the state is untouched. -/
theorem C3_second_claim_rejected (st : GuildState) (chanId actorId : Nat) (ch : Chan)
    (hfind : findChan st chanId = some ch)
    (hopen : ch.inTicketCat = true)
    (hclaimed : containsB claimMarker ch.topic = true) :
    claimOp st chanId actorId = (ClaimOpRes.alreadyClaimed, st) := by
  unfold claimOp
  rw [hfind]
  simp [hopen, ticket_claim, hclaimed]

/-- Witness for C3: a concrete already-claimed ticket; a second claim by
staff member 9 is rejected and the state survives unchanged. -/
theorem C3_second_claim_rejected_witness :
    claimOp c3State 100 9 = (ClaimOpRes.alreadyClaimed, c3State) :=
  C3_second_claim_rejected c3State 100 9 c3Chan (by decide) (by decide) (by decide)

/-- Claim C7: a blacklisted member's panel interaction never creates a
ticket and only triggers the appeal entry point: for every state, button
and configuration, when the member is in the blacklist map the press
returns the blacklist notice plus the appeal DM carrying the stored reason
and the guild state is untouched. -/
theorem C7_blacklisted_press_only_appeals (cfg : Config) (st : GuildState) (btn : BtnType)
    (userId : Nat) (userName reason : Text)
    (hbl : blacklistLookup st.blacklist userId = some reason) :
    pressButton cfg st btn userId userName = (PressRes.blacklistedAppeal reason, st) := by
  unfold pressButton
  rw [hbl]

/-- Witness for C7: member 42 is blacklisted with a stored reason; pressing
the standard button yields exactly the appeal entry point and no state
change. -/
theorem C7_blacklisted_press_only_appeals_witness :
    pressButton cfgAll c7State .standard 42 (strT ("alice")) =
      (PressRes.blacklistedAppeal (strT ("spamming staff")), c7State) :=
  C7_blacklisted_press_only_appeals cfgAll c7State .standard 42 (strT ("alice"))
    (strT ("spamming staff")) (by decide)

/-- Claim C9: a member at the per-type limit always gets LimitReached.
REFUTED on the code: after `c9PreTrace` member 42 owns three concurrently
open standard tickets (the configured limit), yet the standard button
creates a fourth one because the claimed-then-unclaimed ticket's rewritten
topic is no longer counted. -/
theorem C9_limit_check_misses_mangled_ticket :
    openOwnedCount (runOps cfgAll initState c9PreTrace) 42 (BtnType.standard.typeName) = 3 ∧
    (pressButton cfgAll (runOps cfgAll initState c9PreTrace) .standard 42 (strT ("alice"))).1 =
      PressRes.created 103 := by
  decide

/-- Claim C10: creation is refused with LimitReached whenever the member
already has more than 15 open tickets counted across all types in the
ticket container, independent of the requested type: for every complete
configuration and non-blacklisted member, if the all-types count exceeds
15 the press returns `limitReached` and the state is untouched. -/
theorem C10_global_cap (cfg : Config) (st : GuildState) (btn : BtnType)
    (userId : Nat) (userName : Text)
    (hbl : blacklistLookup st.blacklist userId = none)
    (hcfg : cfg.complete = true)
    (hcount : 15 < count_user_tickets st userId none) :
    pressButton cfg st btn userId userName = (PressRes.limitReached, st) := by
  have hc := hcfg
  unfold Config.complete at hc
  simp only [Bool.and_eq_true] at hc
  obtain ⟨⟨⟨hpan, hcatS⟩, harc⟩, hstaffS⟩ := hc
  have hstaff : cfg.staffRole.isNone = false :=
    Bool.eq_false_iff.mpr (fun hh =>
      Option.isSome_iff_ne_none.mp hstaffS (Option.isNone_iff_eq_none.mp hh))
  have hcat : cfg.ticketCategory.isNone = false :=
    Bool.eq_false_iff.mpr (fun hh =>
      Option.isSome_iff_ne_none.mp hcatS (Option.isNone_iff_eq_none.mp hh))
  unfold pressButton
  rw [hbl]
  simp only [hcfg, not_true_eq_false, if_false]
  by_cases hper : btn.limit ≤ count_user_tickets st userId (some btn.typeName)
  · simp [hcat, hper]
  · simp [hcat, hper, create_ticket_channel, hstaff, hcount]

/-- Witness for C10: with sixteen open tickets counted across all types,
member 42's standard-ticket press is refused with LimitReached even though
they have no standard tickets at all. -/
theorem C10_global_cap_witness :
    pressButton cfgAll c10State .standard 42 (strT ("alice")) = (PressRes.limitReached, c10State) :=
  C10_global_cap cfgAll c10State .standard 42 (strT ("alice"))
    (by decide) (by decide) (by decide)

/-!
Substring lemmas used to reason about topic rewriting.
-/

/-- The substring test `containsB` decides list-infix containment. -/
theorem containsB_eq_true_iff (pat s : Text) : containsB pat s = true ↔ pat <:+: s := by
  induction s with
  | nil => simp [containsB, List.isEmpty_iff, List.infix_nil]
  | cons c rest ih =>
    simp only [containsB, Bool.or_eq_true, List.isPrefixOf_iff_prefix, ih,
      List.infix_cons_iff]

/-- Negative form of `containsB_eq_true_iff`. -/
theorem containsB_eq_false_iff (pat s : Text) : containsB pat s = false ↔ ¬ pat <:+: s := by
  rw [Bool.eq_false_iff, Ne, containsB_eq_true_iff]

/-- A pattern containing a character absent from `s` is not an infix of `s`. -/
theorem not_infix_of_missing_char {pat s : Text} {c : Char} (hc : c ∈ pat) (hs : c ∉ s) :
    ¬ pat <:+: s :=
  fun h => hs (h.sublist.subset hc)

/-- A prefix of `as ++ b :: bs` avoiding `b` stays inside `as`. -/
theorem prefix_stops_at_sep : ∀ (pat as : Text) (b : Char) (bs : Text),
    pat <+: as ++ b :: bs → b ∉ pat → pat <+: as := by
  intro pat
  induction pat with
  | nil => intro as b bs _ _; exact List.nil_prefix
  | cons p ps ih =>
    intro as b bs h hb
    cases as with
    | nil =>
      rw [List.nil_append, List.cons_prefix_cons] at h
      obtain ⟨rfl, -⟩ := h
      exact absurd (List.mem_cons_self _ _) hb
    | cons a as2 =>
      rw [List.cons_append, List.cons_prefix_cons] at h
      obtain ⟨rfl, h2⟩ := h
      have h3 : ps <+: as2 := ih as2 b bs h2 (fun hm => hb (List.mem_cons_of_mem _ hm))
      exact List.cons_prefix_cons.mpr ⟨rfl, h3⟩

/-- An infix of `as ++ b :: bs` avoiding `b` lies inside `as` or inside `bs`. -/
theorem infix_split_at_sep (pat : Text) (b : Char) (hb : b ∉ pat) :
    ∀ (as bs : Text), pat <:+: as ++ b :: bs → pat <:+: as ∨ pat <:+: bs := by
  intro as
  induction as with
  | nil =>
    intro bs h
    rw [List.nil_append] at h
    rcases List.infix_cons_iff.mp h with h | h
    · rcases List.prefix_cons_iff.mp h with rfl | ⟨t, rfl, -⟩
      · exact Or.inl (List.infix_nil.mpr rfl)
      · exact absurd (List.mem_cons_self _ _) hb
    · exact Or.inr h
  | cons a as2 ih =>
    intro bs h
    rcases List.infix_cons_iff.mp h with h | h
    · exact Or.inl (prefix_stops_at_sep pat (a :: as2) b bs h hb).isInfix
    · rcases ih bs h with h2 | h2
      · exact Or.inl (List.infix_cons_iff.mpr (Or.inr h2))
      · exact Or.inr h2

/-- `pyStrip s` is an infix of `s`. -/
theorem pyStrip_infix_self (s : Text) : pyStrip s <:+: s := by
  unfold pyStrip
  have h1 : List.dropWhile (fun c => c = ' ') s <:+ s := List.dropWhile_suffix _
  have h2 : (List.dropWhile (fun c => c = ' ')
      ((List.dropWhile (fun c => c = ' ') s).reverse)).reverse
      <+: List.dropWhile (fun c => c = ' ') s := by
    apply List.reverse_suffix.mp
    rw [List.reverse_reverse]
    exact List.dropWhile_suffix _
  exact h2.isInfix.trans h1.isInfix

/-- Digit characters are never the letter `y`. -/
theorem digitChar_ne_y (k : Nat) (hk : k < 10) : digitChar k ≠ 'y' := by
  interval_cases k <;> decide

/-- The rendering of a natural number never contains the letter `y`. -/
theorem y_not_mem_natDigitsCore : ∀ (fuel n : Nat), 'y' ∉ natDigitsCore fuel n := by
  intro fuel
  induction fuel with
  | zero => intro n h; simp [natDigitsCore] at h
  | succ fuel ih =>
    intro n h
    rw [natDigitsCore] at h
    by_cases h10 : n < 10
    · rw [if_pos h10] at h
      exact digitChar_ne_y n h10 (List.mem_singleton.mp h).symm
    · rw [if_neg h10] at h
      rcases List.mem_append.mp h with h2 | h2
      · exact ih (n / 10) h2
      · exact digitChar_ne_y (n % 10) (Nat.mod_lt n (by omega)) (List.mem_singleton.mp h2).symm

/-- The claim marker is never a substring of a synthesized owner marker. -/
theorem claimMarker_not_infix_owner (chanId : Nat) :
    ¬ claimMarker <:+: (ownerMarkerHead ++ natDigits chanId) := by
  apply not_infix_of_missing_char (c := 'y')
  · decide
  · intro hmem
    rcases List.mem_append.mp hmem with h | h
    · revert h; decide
    · exact y_not_mem_natDigitsCore (chanId + 1) chanId h

/-- The claim marker survives neither side of a space-joined, then stripped,
pair of claim-marker-free pieces. -/
theorem claimMarker_free_strip_join (base ty : Text)
    (hb : ¬ claimMarker <:+: base) (ht : ¬ claimMarker <:+: ty) :
    containsB claimMarker (pyStrip (base ++ strT (" ") ++ ty)) = false := by
  rw [containsB_eq_false_iff]
  intro h
  have h2 : claimMarker <:+: base ++ strT (" ") ++ ty := h.trans (pyStrip_infix_self _)
  have hsp : strT (" ") = [' '] := rfl
  rw [hsp, List.append_assoc, List.singleton_append] at h2
  rcases infix_split_at_sep claimMarker ' ' (by decide) base ty h2 with h3 | h3
  · exact hb h3
  · exact ht h3

/-- Denial branch of `ticket_unclaim`: a non-claimer non-admin actor is
rejected with no topic change (bot.py 1322-1325). -/
theorem ticket_unclaim_denied (chanId actorId claimerId : Nat) (topic : Text)
    (hclaimed : containsB claimMarker topic = true)
    (hparse : pyIntNat (claimerIdStr topic) = some claimerId)
    (hne : actorId ≠ claimerId) :
    ticket_unclaim chanId actorId false topic = (UnclaimRes.permissionDenied, topic) := by
  unfold ticket_unclaim
  rw [hparse]
  simp [hclaimed, hne]

/-- Success branch of `ticket_unclaim`: the claimer or an administrator
gets the claim marker removed, provided the first two whitespace tokens of
the topic do not themselves embed the marker (true of every topic the bot
writes). -/
theorem ticket_unclaim_grants (chanId actorId claimerId : Nat) (isAdmin : Bool) (topic : Text)
    (hclaimed : containsB claimMarker topic = true)
    (hparse : pyIntNat (claimerIdStr topic) = some claimerId)
    (hok : actorId = claimerId ∨ isAdmin = true)
    (hp0 : ¬ claimMarker <:+: (pySplitChar ' ' topic).headD [])
    (hp1 : ¬ claimMarker <:+: ((pySplitChar ' ' topic).get? 1).getD []) :
    (ticket_unclaim chanId actorId isAdmin topic).1 = UnclaimRes.unclaimed ∧
    containsB claimMarker (ticket_unclaim chanId actorId isAdmin topic).2 = false := by
  have hcond : ¬ (actorId ≠ claimerId ∧ ¬ isAdmin = true) := by
    rcases hok with h | h
    · intro hc; exact hc.1 h
    · intro hc; exact hc.2 h
  unfold ticket_unclaim
  rw [hparse]
  simp only [hclaimed, not_true_eq_false, if_false]
  rw [if_neg hcond]
  refine ⟨rfl, ?_⟩
  apply claimMarker_free_strip_join
  · split
    · exact hp0
    · exact claimMarker_not_infix_owner chanId
  · split
    · rename_i p heq
      split
      · rw [heq] at hp1; exact hp1
      · intro hx; exact absurd (List.infix_nil.mp hx) (by decide)
    · intro hx; exact absurd (List.infix_nil.mp hx) (by decide)

/-- Claim C4: on a claimed ticket (claim marker present, claimer id
parseable), Unclaim by an actor who is neither the claim holder nor an
administrator returns PermissionDenied with the state untouched, while
Unclaim by the holder or an administrator succeeds and produces a topic
without the claim marker.  The marker-freeness side conditions on the
first two topic tokens hold for every topic the bot itself writes. -/
theorem C4_unclaim_permission_rule (st : GuildState) (chanId actorId claimerId : Nat)
    (isAdmin : Bool) (ch : Chan)
    (hfind : findChan st chanId = some ch)
    (hopen : ch.inTicketCat = true)
    (hclaimed : containsB claimMarker ch.topic = true)
    (hparse : pyIntNat (claimerIdStr ch.topic) = some claimerId)
    (hp0 : containsB claimMarker ((pySplitChar ' ' ch.topic).headD []) = false)
    (hp1 : containsB claimMarker (((pySplitChar ' ' ch.topic).get? 1).getD []) = false) :
    (actorId ≠ claimerId → isAdmin = false →
      unclaimOp st chanId actorId isAdmin = (UnclaimOpRes.permissionDenied, st)) ∧
    (actorId = claimerId ∨ isAdmin = true →
      unclaimOp st chanId actorId isAdmin =
        (UnclaimOpRes.unclaimed,
          setTopic st chanId (ticket_unclaim chanId actorId isAdmin ch.topic).2) ∧
      containsB claimMarker (ticket_unclaim chanId actorId isAdmin ch.topic).2 = false) := by
  constructor
  · intro hne hadm
    subst hadm
    have h1 := ticket_unclaim_denied chanId actorId claimerId ch.topic hclaimed hparse hne
    unfold unclaimOp
    rw [hfind]
    simp [hopen, h1]
  · intro hok
    have h2 := ticket_unclaim_grants chanId actorId claimerId isAdmin ch.topic hclaimed hparse
      hok ((containsB_eq_false_iff _ _).mp hp0) ((containsB_eq_false_iff _ _).mp hp1)
    refine ⟨?_, h2.2⟩
    rcases hres : ticket_unclaim chanId actorId isAdmin ch.topic with ⟨r, t⟩
    have hr : r = UnclaimRes.unclaimed := by
      have h3 := h2.1
      rw [hres] at h3
      exact h3
    subst hr
    unfold unclaimOp
    rw [hfind]
    simp [hopen, hres]

/-- Witness for C4: on the concrete claimed ticket of `c4State` (claimed by
staff 7), staff member 9 without admin rights is denied with no state
change, while the claimer 7 succeeds and the rewritten topic carries no
claim marker. -/
theorem C4_unclaim_permission_rule_witness :
    unclaimOp c4State 100 9 false = (UnclaimOpRes.permissionDenied, c4State) ∧
    unclaimOp c4State 100 7 false =
      (UnclaimOpRes.unclaimed, setTopic c4State 100 (ticket_unclaim 100 7 false c4Chan.topic).2) ∧
    containsB claimMarker (ticket_unclaim 100 7 false c4Chan.topic).2 = false :=
  ⟨(C4_unclaim_permission_rule c4State 100 9 7 false c4Chan (by decide) (by decide)
      (by decide) (by decide) (by decide) (by decide)).1 (by decide) rfl,
   (C4_unclaim_permission_rule c4State 100 7 7 false c4Chan (by decide) (by decide)
      (by decide) (by decide) (by decide) (by decide)).2 (Or.inl rfl)⟩

/-- Digit characters really are digits. -/
theorem digitChar_isDigit (k : Nat) (hk : k < 10) : (digitChar k).isDigit = true := by
  interval_cases k <;> decide

/-- Code point of a digit character. -/
theorem digitChar_toNat (k : Nat) (hk : k < 10) : (digitChar k).toNat = 48 + k := by
  interval_cases k <;> decide

/-- Every character of a rendered natural number is a digit. -/
theorem natDigitsCore_digits :
    ∀ (fuel n : Nat) (c : Char), c ∈ natDigitsCore fuel n → c.isDigit = true := by
  intro fuel
  induction fuel with
  | zero => intro n c h; simp [natDigitsCore] at h
  | succ fuel ih =>
    intro n c h
    rw [natDigitsCore] at h
    by_cases h10 : n < 10
    · rw [if_pos h10] at h
      rw [List.mem_singleton.mp h]
      exact digitChar_isDigit n h10
    · rw [if_neg h10] at h
      rcases List.mem_append.mp h with h2 | h2
      · exact ih (n / 10) c h2
      · rw [List.mem_singleton.mp h2]
        exact digitChar_isDigit (n % 10) (Nat.mod_lt n (by omega))

/-- A rendered natural number is never the empty string. -/
theorem natDigitsCore_ne_nil (fuel n : Nat) : natDigitsCore (fuel + 1) n ≠ [] := by
  rw [natDigitsCore]
  by_cases h10 : n < 10
  · rw [if_pos h10]; simp
  · rw [if_neg h10]; simp

/-- `digitsVal` inverts `natDigitsCore` once the fuel covers the number. -/
theorem digitsVal_natDigitsCore :
    ∀ (fuel n : Nat), n < 10 ^ fuel → digitsVal (natDigitsCore fuel n) = n := by
  intro fuel
  induction fuel with
  | zero => intro n h; interval_cases n; rfl
  | succ fuel ih =>
    intro n h
    rw [natDigitsCore]
    by_cases h10 : n < 10
    · rw [if_pos h10]
      show 0 * 10 + ((digitChar n).toNat - 48) = n
      rw [digitChar_toNat n h10]
      omega
    · rw [if_neg h10]
      unfold digitsVal
      rw [List.foldl_append]
      have hdiv : n / 10 < 10 ^ fuel := by
        rw [Nat.div_lt_iff_lt_mul (by omega)]
        calc n < 10 ^ (fuel + 1) := h
        _ = 10 ^ fuel * 10 := by rw [pow_succ]
      have hih := ih (n / 10) hdiv
      unfold digitsVal at hih
      rw [hih]
      show n / 10 * 10 + ((digitChar (n % 10)).toNat - 48) = n
      rw [digitChar_toNat (n % 10) (Nat.mod_lt n (by omega))]
      omega

/-- Python `int` round-trips the f-string rendering of an id. -/
theorem pyIntNat_natDigits (n : Nat) : pyIntNat (natDigits n) = some n := by
  unfold pyIntNat natDigits
  rw [if_pos]
  · rw [digitsVal_natDigitsCore (n + 1) n
      (lt_of_lt_of_le (Nat.lt_pow_self (by norm_num) n)
        (Nat.pow_le_pow_right (by norm_num) (by omega)))]
  · constructor
    · exact natDigitsCore_ne_nil n n
    · rw [List.all_eq_true]
      intro c hc
      exact natDigitsCore_digits (n + 1) n c hc

/-- Splitting walks unchanged through a stretch free of the separator head. -/
theorem pySplitSeqAux_skip (c0 : Char) (sepRest : Text) :
    ∀ (pre : Text), (∀ c ∈ pre, c ≠ c0) →
      ∀ (fuel : Nat) (s acc : Text),
        pySplitSeqAux c0 sepRest (fuel + pre.length) (pre ++ s) acc =
          pySplitSeqAux c0 sepRest fuel s (pre.reverse ++ acc) := by
  intro pre
  induction pre with
  | nil => intro _ fuel s acc; simp
  | cons c pre2 ih =>
    intro hpre fuel s acc
    have hc : c ≠ c0 := hpre c (List.mem_cons_self _ _)
    show pySplitSeqAux c0 sepRest ((fuel + pre2.length) + 1) (c :: (pre2 ++ s)) acc = _
    rw [pySplitSeqAux, if_neg (fun h => hc h.1)]
    rw [ih (fun d hd => hpre d (List.mem_cons_of_mem _ hd)) fuel s (c :: acc)]
    simp

/-- Splitting at an occurrence of the separator closes the current piece. -/
theorem pySplitSeqAux_hit (c0 : Char) (sepRest : Text) (fuel : Nat) (tail acc : Text) :
    pySplitSeqAux c0 sepRest (fuel + 1) (c0 :: (sepRest ++ tail)) acc =
      acc.reverse :: pySplitSeqAux c0 sepRest fuel tail [] := by
  rw [pySplitSeqAux,
    if_pos ⟨rfl, List.isPrefixOf_iff_prefix.mpr (List.prefix_append _ _)⟩,
    List.drop_left]

/-- Splitting a text free of the separator head yields a single piece. -/
theorem pySplitSeqAux_all_miss (c0 : Char) (sepRest : Text) :
    ∀ (fuel : Nat) (s acc : Text), (∀ c ∈ s, c ≠ c0) → s.length ≤ fuel →
      pySplitSeqAux c0 sepRest fuel s acc = [acc.reverse ++ s] := by
  intro fuel
  induction fuel with
  | zero =>
    intro s acc hs hlen
    interval_cases h : s.length
    · rw [List.length_eq_zero.mp h]; simp [pySplitSeqAux]
  | succ fuel ih =>
    intro s acc hs hlen
    cases s with
    | nil => simp [pySplitSeqAux]
    | cons c rest =>
      have hc : c ≠ c0 := hs c (List.mem_cons_self _ _)
      rw [pySplitSeqAux, if_neg (fun h => hc h.1)]
      rw [ih rest (c :: acc) (fun d hd => hs d (List.mem_cons_of_mem _ hd))
        (by simp only [List.length_cons] at hlen; omega)]
      simp

/-- The Review Record footer splits on `": "` into the label and the id. -/
theorem footer_split (uid : Nat) :
    pySplitSeq (strT (": ")) (strT ("User ID: ") ++ natDigits uid) =
      [strT ("User ID"), natDigits uid] := by
  have hdig : ∀ c ∈ natDigits uid, c ≠ ':' := by
    intro c hc h
    have h2 := natDigitsCore_digits (uid + 1) uid c hc
    rw [h] at h2
    exact absurd h2 (by decide)
  have hshape : strT ("User ID: ") ++ natDigits uid =
      strT ("User ID") ++ (':' :: ([' '] ++ natDigits uid)) := by
    simp [strT]
  have hlen : (strT ("User ID: ") ++ natDigits uid).length =
      (((natDigits uid).length + 1) + 1) + (strT ("User ID")).length := by
    simp [strT]
  show pySplitSeqAux ':' [' '] (strT ("User ID: ") ++ natDigits uid).length
      (strT ("User ID: ") ++ natDigits uid) [] = _
  rw [hlen]
  conv_lhs => rw [hshape]
  rw [pySplitSeqAux_skip ':' [' '] (strT ("User ID")) (by decide)
    (((natDigits uid).length + 1) + 1) (':' :: ([' '] ++ natDigits uid)) []]
  rw [show (((natDigits uid).length + 1) + 1) = ((natDigits uid).length + 1) + 1 from rfl]
  rw [pySplitSeqAux_hit ':' [' '] ((natDigits uid).length + 1) (natDigits uid)]
  rw [pySplitSeqAux_all_miss ':' [' '] ((natDigits uid).length + 1) (natDigits uid) []
    hdig (by omega)]
  simp [strT]

/-- The footer written for member `uid` parses back to `uid`. -/
theorem parseFooterId_reviewRecord (uid : Nat) :
    parseFooterId (strT ("User ID: ") ++ natDigits uid) = some uid := by
  unfold parseFooterId
  rw [footer_split]
  show pyIntNat (natDigits uid) = some uid
  exact pyIntNat_natDigits uid

/-- The footer written for member `uid` passes the `User ID:` presence test. -/
theorem footer_contains_label (uid : Nat) :
    containsB (strT ("User ID:")) (strT ("User ID: ") ++ natDigits uid) = true := by
  rw [containsB_eq_true_iff]
  exact ((List.prefix_append _ _).trans (List.prefix_append _ _)).isInfix

/-- A removed blacklist entry is gone. -/
theorem blacklistLookup_remove (bl : Blacklist) (uid : Nat) :
    blacklistLookup (removeBlacklistEntry bl uid) uid = none := by
  unfold blacklistLookup removeBlacklistEntry
  rw [List.find?_eq_none.mpr]
  intro p hp
  have h2 := (List.mem_filter.mp hp).2
  simp only [bne_iff_ne, ne_eq] at h2
  simpa using h2

/-- Removing an entry twice is the same as removing it once. -/
theorem removeBlacklistEntry_idem (bl : Blacklist) (uid : Nat) :
    removeBlacklistEntry (removeBlacklistEntry bl uid) uid = removeBlacklistEntry bl uid := by
  unfold removeBlacklistEntry
  rw [List.filter_filter]
  simp

/-- An accepted non-proof answer meets the minimum length. -/
theorem ask_question_min (minLength : Nat) :
    ∀ (evs : List QEvent) (m : MsgEv),
      ask_question minLength false evs = some m → minLength ≤ m.content.length := by
  intro evs
  induction evs with
  | nil => intro m h; simp [ask_question] at h
  | cons e rest ih =>
    intro m h
    cases e with
    | timedOut => simp [ask_question] at h
    | msg m2 =>
      rw [ask_question] at h
      rw [if_neg (by decide : ¬ ((false : Bool) = true))] at h
      by_cases hlen : m2.content.length < minLength
      · rw [if_pos hlen] at h
        exact ih m h
      · rw [if_neg hlen] at h
        rcases Option.some_inj.mp h
        omega

/-- Encoding is a homomorphism for concatenation. -/
theorem utf8Cps_append (a b : List Nat) : utf8Cps (a ++ b) = utf8Cps a ++ utf8Cps b := by
  induction a with
  | nil => rfl
  | cons c cs ih => simp [utf8Cps, ih]

/-- Length facts about the one-code-point encoder. -/
theorem utf8EncodeCp_length_le (c : Nat) :
    (utf8EncodeCp c).length ≤ 4 ∧ (c < 0x800 → (utf8EncodeCp c).length ≤ 2) ∧
    (c < 0x10000 → (utf8EncodeCp c).length ≤ 3) ∧ (c < 0x80 → (utf8EncodeCp c).length = 1) := by
  unfold utf8EncodeCp
  split_ifs <;> simp_all

/-- Decoding then re-encoding never grows a byte string. -/
theorem utf8Cps_decodeIgnoreF_length (fuel : Nat) (bs : List Nat) :
    (utf8Cps (decodeIgnoreF fuel bs)).length ≤ bs.length := by
  induction fuel, bs using decodeIgnoreF.induct
  case case1 => simp [decodeIgnoreF, utf8Cps]
  case case2 x hx =>
    cases x with
    | nil => simp [decodeIgnoreF, utf8Cps]
    | cons b rest => simp [decodeIgnoreF, utf8Cps]
  case case3 fuel b1 rest h1 ih =>
    simp only [decodeIgnoreF, h1, if_true, utf8Cps, List.length_append, List.length_cons]
    have he := (utf8EncodeCp_length_le b1).2.2.2 (by omega)
    omega
  case case4 fuel b1 rest h1 h2 ih =>
    simp only [decodeIgnoreF, h1, h2, if_false, if_true, and_self, and_true, true_and, List.length_cons]
    omega
  case case5 fuel b1 h1 h2 h3 b2 rest2 hc ih =>
    simp only [decodeIgnoreF, h1, h2, h3, hc, if_false, if_true, and_self, and_true, true_and, utf8Cps,
      List.length_append, List.length_cons]
    have he := ((utf8EncodeCp_length_le ((b1 - 192) * 64 + (b2 - 128))).2.1 (by omega))
    omega
  case case6 fuel b1 h1 h2 h3 b2 rest2 hc ih =>
    simp only [decodeIgnoreF, h1, h2, h3, hc, if_false, if_true, and_self, and_true, true_and, List.length_cons] at ih ⊢
    omega
  case case7 fuel b1 h1 h2 h3 =>
    simp only [decodeIgnoreF, h1, h2, h3, if_false, if_true, and_self, and_true, true_and, utf8Cps, List.length_cons,
      List.length_nil]
    omega
  case case8 fuel b1 h1 h2 h3 h4 b2 b3 rest3 hc hrej ih =>
    simp only [decodeIgnoreF, h1, h2, h3, h4, hc, hrej, if_false, if_true, and_self, and_true, true_and,
      List.length_cons] at ih ⊢
    omega
  case case9 fuel b1 h1 h2 h3 h4 b2 b3 rest3 hc hrej ih =>
    simp only [decodeIgnoreF, h1, h2, h3, h4, hc, hrej, if_false, if_true, and_self, and_true, true_and, utf8Cps,
      List.length_append, List.length_cons]
    have he := ((utf8EncodeCp_length_le
      ((b1 - 224) * 4096 + (b2 - 128) * 64 + (b3 - 128))).2.2.1 (by omega))
    omega
  case case10 fuel b1 h1 h2 h3 h4 b2 b3 rest3 hc ih =>
    simp only [decodeIgnoreF, h1, h2, h3, h4, hc, if_false, if_true, and_self, and_true, true_and, List.length_cons] at ih ⊢
    omega
  case case11 fuel b1 rest h1 h2 h3 h4 hshape ih =>
    cases rest with
    | nil => simp [decodeIgnoreF, utf8Cps, h1, h2, h3, h4]
    | cons b2 rest2 =>
      cases rest2 with
      | nil =>
        simp only [decodeIgnoreF, h1, h2, h3, h4, if_false, if_true, and_self, and_true, true_and, List.length_cons] at ih ⊢
        omega
      | cons b3 rest3 => exact absurd rfl (hshape b2 b3 rest3)
  case case12 fuel b1 h1 h2 h3 h4 h5 b2 b3 b4 rest4 hc hrej ih =>
    simp only [decodeIgnoreF, h1, h2, h3, h4, h5, hc, hrej, if_false, if_true, and_self, and_true, true_and,
      List.length_cons] at ih ⊢
    omega
  case case13 fuel b1 h1 h2 h3 h4 h5 b2 b3 b4 rest4 hc hrej ih =>
    simp only [decodeIgnoreF, h1, h2, h3, h4, h5, hc, hrej, if_false, if_true, and_self, and_true, true_and, utf8Cps,
      List.length_append, List.length_cons]
    have he := (utf8EncodeCp_length_le
      ((b1 - 240) * 262144 + (b2 - 128) * 4096 + (b3 - 128) * 64 + (b4 - 128))).1
    omega
  case case14 fuel b1 h1 h2 h3 h4 h5 b2 b3 b4 rest4 hc ih =>
    simp only [decodeIgnoreF, h1, h2, h3, h4, h5, hc, if_false, if_true, and_self, and_true, true_and,
      List.length_cons] at ih ⊢
    omega
  case case15 fuel b1 rest h1 h2 h3 h4 h5 hshape ih =>
    cases rest with
    | nil => simp [decodeIgnoreF, utf8Cps, h1, h2, h3, h4, h5]
    | cons b2 rest2 =>
      cases rest2 with
      | nil =>
        simp only [decodeIgnoreF, h1, h2, h3, h4, h5, if_false, if_true, and_self, and_true, true_and,
          List.length_cons] at ih ⊢
        omega
      | cons b3 rest3 =>
        cases rest3 with
        | nil =>
          simp only [decodeIgnoreF, h1, h2, h3, h4, h5, if_false, if_true, and_self, and_true, true_and,
            List.length_cons] at ih ⊢
          omega
        | cons b4 rest4 => exact absurd rfl (hshape b2 b3 b4 rest4)
  case case16 fuel b1 rest h1 h2 h3 h4 h5 ih =>
    simp only [decodeIgnoreF, h1, h2, h3, h4, h5, if_false, if_true, and_self, and_true, true_and, List.length_cons] at ih ⊢
    omega

/-- Every code point produced by the lenient decoder is a scalar value. -/
theorem decodeIgnoreF_scalars (fuel : Nat) (bs : List Nat) :
    ∀ c ∈ decodeIgnoreF fuel bs, ScalarValue c := by
  induction fuel, bs using decodeIgnoreF.induct
  case case1 => simp [decodeIgnoreF]
  case case2 x hx =>
    cases x with
    | nil => simp [decodeIgnoreF]
    | cons b rest => simp [decodeIgnoreF]
  case case3 fuel b1 rest h1 ih =>
    simp only [decodeIgnoreF, h1, if_true]
    intro c hc
    rcases List.mem_cons.mp hc with rfl | hc
    · exact Or.inl (by omega)
    · exact ih c hc
  case case4 fuel b1 rest h1 h2 ih =>
    simp only [decodeIgnoreF, h1, h2, if_false, if_true, and_self, and_true, true_and]
    exact ih
  case case5 fuel b1 h1 h2 h3 b2 rest2 hc ih =>
    simp only [decodeIgnoreF, h1, h2, h3, hc, if_false, if_true, and_self, and_true, true_and]
    intro c hcm
    rcases List.mem_cons.mp hcm with rfl | hcm
    · exact Or.inl (by omega)
    · exact ih c hcm
  case case6 fuel b1 h1 h2 h3 b2 rest2 hc ih =>
    simp only [decodeIgnoreF, h1, h2, h3, hc, if_false, if_true, and_self, and_true, true_and]
    exact ih
  case case7 fuel b1 h1 h2 h3 =>
    simp [decodeIgnoreF, h1, h2, h3]
  case case8 fuel b1 h1 h2 h3 h4 b2 b3 rest3 hc hrej ih =>
    simp only [decodeIgnoreF, h1, h2, h3, h4, hc, hrej, if_false, if_true, and_self,
      and_true, true_and]
    exact ih
  case case9 fuel b1 h1 h2 h3 h4 b2 b3 rest3 hc hrej ih =>
    simp only [decodeIgnoreF, h1, h2, h3, h4, hc, hrej, if_false, if_true, and_self,
      and_true, true_and]
    intro c hcm
    rcases List.mem_cons.mp hcm with rfl | hcm
    · rcases hc with ⟨hc2, hc3⟩
      unfold ScalarValue
      omega
    · exact ih c hcm
  case case10 fuel b1 h1 h2 h3 h4 b2 b3 rest3 hc ih =>
    simp only [decodeIgnoreF, h1, h2, h3, h4, hc, if_false, if_true, and_self, and_true,
      true_and]
    exact ih
  case case11 fuel b1 rest h1 h2 h3 h4 hshape ih =>
    cases rest with
    | nil => simp [decodeIgnoreF, h1, h2, h3, h4]
    | cons b2 rest2 =>
      cases rest2 with
      | nil =>
        simp only [decodeIgnoreF, h1, h2, h3, h4, if_false, if_true, and_self, and_true,
          true_and] at ih ⊢
        exact ih
      | cons b3 rest3 => exact absurd rfl (hshape b2 b3 rest3)
  case case12 fuel b1 h1 h2 h3 h4 h5 b2 b3 b4 rest4 hc hrej ih =>
    simp only [decodeIgnoreF, h1, h2, h3, h4, h5, hc, hrej, if_false, if_true, and_self,
      and_true, true_and]
    exact ih
  case case13 fuel b1 h1 h2 h3 h4 h5 b2 b3 b4 rest4 hc hrej ih =>
    simp only [decodeIgnoreF, h1, h2, h3, h4, h5, hc, hrej, if_false, if_true, and_self,
      and_true, true_and]
    intro c hcm
    rcases List.mem_cons.mp hcm with rfl | hcm
    · rcases hc with ⟨hc2, hc3, hc4⟩
      unfold ScalarValue
      omega
    · exact ih c hcm
  case case14 fuel b1 h1 h2 h3 h4 h5 b2 b3 b4 rest4 hc ih =>
    simp only [decodeIgnoreF, h1, h2, h3, h4, h5, hc, if_false, if_true, and_self,
      and_true, true_and]
    exact ih
  case case15 fuel b1 rest h1 h2 h3 h4 h5 hshape ih =>
    cases rest with
    | nil => simp [decodeIgnoreF, h1, h2, h3, h4, h5]
    | cons b2 rest2 =>
      cases rest2 with
      | nil =>
        simp only [decodeIgnoreF, h1, h2, h3, h4, h5, if_false, if_true, and_self,
          and_true, true_and] at ih ⊢
        exact ih
      | cons b3 rest3 =>
        cases rest3 with
        | nil =>
          simp only [decodeIgnoreF, h1, h2, h3, h4, h5, if_false, if_true, and_self,
            and_true, true_and] at ih ⊢
          exact ih
        | cons b4 rest4 => exact absurd rfl (hshape b2 b3 b4 rest4)
  case case16 fuel b1 rest h1 h2 h3 h4 h5 ih =>
    simp only [decodeIgnoreF, h1, h2, h3, h4, h5, if_false, if_true, and_self, and_true,
      true_and]
    exact ih

/-- Lenient decoding is the identity on ASCII bytes. -/
theorem decodeIgnoreF_ascii :
    ∀ (fuel : Nat) (bs : List Nat), (∀ b ∈ bs, b < 0x80) → bs.length ≤ fuel →
      decodeIgnoreF fuel bs = bs := by
  intro fuel
  induction fuel with
  | zero =>
    intro bs h hl
    rw [List.length_eq_zero.mp (Nat.le_zero.mp hl)]
    rfl
  | succ f ih =>
    intro bs h hl
    cases bs with
    | nil => rfl
    | cons b rest =>
      have hb : b < 0x80 := h b (List.mem_cons_self _ _)
      simp only [decodeIgnoreF, hb, if_true]
      rw [ih rest (fun d hd => h d (List.mem_cons_of_mem _ hd))
        (by simp only [List.length_cons] at hl; omega)]

/-- Encoding is the identity on ASCII code points. -/
theorem utf8Cps_ascii (l : List Nat) (h : ∀ c ∈ l, c < 0x80) : utf8Cps l = l := by
  induction l with
  | nil => rfl
  | cons c cs ih =>
    have hc : c < 0x80 := h c (List.mem_cons_self _ _)
    simp only [utf8Cps]
    rw [ih (fun d hd => h d (List.mem_cons_of_mem _ hd))]
    simp [utf8EncodeCp, hc]

/-- Code points of Lean characters are scalar values. -/
theorem scalar_of_char (c : Char) : ScalarValue c.toNat := by
  have h := c.valid
  unfold UInt32.isValidChar Nat.isValidChar at h
  exact h

/-- Claim C5, amended: the transcript byte length never exceeds the cap;
when the encoded content exceeds the cap, the output is valid UTF-8 and
ends with the truncation marker line actually written by the code,
`--- TRANSCRIPT TRUNCATED DUE TO SIZE LIMIT ---`. -/
theorem C5_cap_and_marker (msgs : List TMsg) :
    (generate_transcript msgs).length ≤ maxTranscriptBytes ∧
    (maxTranscriptBytes < (utf8Text (transcriptText msgs)).length →
      IsValidUtf8 (generate_transcript msgs) ∧
      utf8Text truncationMarkerLine <:+ generate_transcript msgs) := by
  constructor
  · unfold generate_transcript
    by_cases h : maxTranscriptBytes < (utf8Text (transcriptText msgs)).length
    · rw [if_pos h, utf8Cps_append, List.length_append]
      have h1 : (utf8Cps (decodeIgnore
          ((utf8Text (transcriptText msgs)).take (maxTranscriptBytes - 200)))).length ≤
          maxTranscriptBytes - 200 := by
        unfold decodeIgnore
        calc (utf8Cps (decodeIgnoreF
            ((utf8Text (transcriptText msgs)).take (maxTranscriptBytes - 200)).length
            ((utf8Text (transcriptText msgs)).take (maxTranscriptBytes - 200)))).length ≤
            ((utf8Text (transcriptText msgs)).take (maxTranscriptBytes - 200)).length :=
          utf8Cps_decodeIgnoreF_length _ _
        _ ≤ maxTranscriptBytes - 200 := by
            rw [List.length_take]
            exact min_le_left _ _
      have h2 : (utf8Cps (textCps truncationNotice)).length = 48 := by decide
      have h3 : 200 ≤ maxTranscriptBytes := by norm_num [maxTranscriptBytes]
      omega
    · rw [if_neg h]
      omega
  · intro h
    unfold generate_transcript
    rw [if_pos h]
    constructor
    · refine ⟨decodeIgnore ((utf8Text (transcriptText msgs)).take (maxTranscriptBytes - 200)) ++
        textCps truncationNotice, ?_, rfl⟩
      intro c hc
      rcases List.mem_append.mp hc with hc | hc
      · exact decodeIgnoreF_scalars _ _ c hc
      · rcases List.mem_map.mp hc with ⟨ch, -, rfl⟩
        exact scalar_of_char ch
    · have hsplit : textCps truncationNotice =
          textCps (strT ("\n\n")) ++ textCps truncationMarkerLine := by
        unfold truncationNotice textCps
        rw [List.map_append]
      rw [hsplit, utf8Cps_append, utf8Cps_append, ← List.append_assoc]
      exact List.suffix_append _ _

/-- The transcript text of the oversized history is the header plus the
repeated content. -/
theorem big_transcriptText :
    transcriptText [bigTicketMsg] = bigLinePrefix ++ List.replicate 8000000 'a' := by
  have hA : joinNL (([bigTicketMsg].map msgLines).flatten) =
      bigLinePrefix ++ List.replicate 8000000 'a' := rfl
  unfold transcriptText
  rw [hA, if_neg (fun hcontra =>
    absurd (List.append_eq_nil.mp hcontra).1 (by decide : bigLinePrefix ≠ []))]

/-- The encoded oversized transcript, byte for byte. -/
theorem big_encoded :
    utf8Text (transcriptText [bigTicketMsg]) =
      textCps bigLinePrefix ++ List.replicate 8000000 97 := by
  rw [big_transcriptText]
  unfold utf8Text textCps
  rw [List.map_append, List.map_replicate, utf8Cps_append,
    utf8Cps_ascii (List.map Char.toNat bigLinePrefix) (by decide),
    utf8Cps_ascii (List.replicate 8000000 ('a'.toNat)) (fun c hc => by
      rw [List.eq_of_mem_replicate hc]; decide)]
  rfl

/-- Byte length of the header. -/
theorem bigLinePrefix_len : (textCps bigLinePrefix).length = 38 := by decide

/-- The oversized transcript exceeds the cap. -/
theorem big_overflow :
    maxTranscriptBytes < (utf8Text (transcriptText [bigTicketMsg])).length := by
  rw [big_encoded, List.length_append, List.length_replicate, bigLinePrefix_len]
  norm_num [maxTranscriptBytes]

/-- The generated transcript of the oversized history, byte for byte. -/
theorem big_output :
    generate_transcript [bigTicketMsg] =
      (textCps bigLinePrefix ++ List.replicate 7864082 97) ++ utf8Text truncationNotice := by
  unfold generate_transcript
  rw [if_pos big_overflow, big_encoded]
  have htake : (textCps bigLinePrefix ++ List.replicate 8000000 97).take
      (maxTranscriptBytes - 200) = textCps bigLinePrefix ++ List.replicate 7864082 97 := by
    rw [List.take_append_eq_append_take,
      List.take_of_length_le (by rw [bigLinePrefix_len]; norm_num [maxTranscriptBytes]),
      List.take_replicate, bigLinePrefix_len,
      show (maxTranscriptBytes - 200 - 38) ⊓ 8000000 = 7864082 from by
        norm_num [maxTranscriptBytes]]
  rw [htake]
  have hascii : ∀ b ∈ textCps bigLinePrefix ++ List.replicate 7864082 97, b < 0x80 := by
    intro b hb
    rcases List.mem_append.mp hb with hb | hb
    · revert hb
      have hall : ∀ b2 ∈ textCps bigLinePrefix, b2 < 0x80 := by decide
      exact hall b
    · rw [List.eq_of_mem_replicate hb]; decide
  unfold decodeIgnore
  rw [decodeIgnoreF_ascii _ _ hascii le_rfl, utf8Cps_append,
    utf8Cps_ascii _ hascii]
  rfl

/-- Claim C5 as stated fails: on the oversized single-message history the
full content exceeds the cap, yet the output does not end with the marker
line quoted by the specification (`--- TRANSCRIPT TRUNCATED ---`) — the
code appends `--- TRANSCRIPT TRUNCATED DUE TO SIZE LIMIT ---` instead. -/
theorem C5_spec_marker_not_suffix :
    maxTranscriptBytes < (utf8Text (transcriptText [bigTicketMsg])).length ∧
    ¬ (utf8Text specMarkerLine <:+ generate_transcript [bigTicketMsg]) := by
  refine ⟨big_overflow, ?_⟩
  intro h
  rw [big_output] at h
  have hlenA : (textCps bigLinePrefix ++ List.replicate 7864082 97).length = 7864120 := by
    rw [List.length_append, List.length_replicate, bigLinePrefix_len]
  have heq := List.suffix_iff_eq_drop.mp h
  rw [List.length_append, hlenA,
    show (utf8Text truncationNotice).length = 48 from by decide,
    show (utf8Text specMarkerLine).length = 28 from by decide,
    List.drop_append_eq_append_drop,
    List.drop_eq_nil_of_le (by rw [hlenA]; norm_num), List.nil_append, hlenA,
    show 7864120 + 48 - 28 - 7864120 = 20 from by norm_num] at heq
  exact absurd heq (by decide)

/-- Witness for the amended C5 on the oversized history: the output stays
under the cap, is valid UTF-8 and ends with the code's marker line. -/
theorem C5_cap_and_marker_witness :
    (generate_transcript [bigTicketMsg]).length ≤ maxTranscriptBytes ∧
    IsValidUtf8 (generate_transcript [bigTicketMsg]) ∧
    utf8Text truncationMarkerLine <:+ generate_transcript [bigTicketMsg] :=
  ⟨(C5_cap_and_marker [bigTicketMsg]).1,
   ((C5_cap_and_marker [bigTicketMsg]).2 big_overflow).1,
   ((C5_cap_and_marker [bigTicketMsg]).2 big_overflow).2⟩

/-- No run of the appeal conversation ever posts a Review Record, whatever
the member answers or presses: the Submit callback always crashes first. -/
theorem start_appeal_never_posts (cfgOk : Bool) (userId : Nat)
    (q1e q2e q3e : List QEvent) (conf : ConfirmEvent) (r : AppealRecord) :
    start_appeal cfgOk userId q1e q2e q3e conf ≠ AppealOutcome.posted r := by
  intro h
  unfold start_appeal at h
  split at h
  · exact AppealOutcome.noConfusion h
  · split at h
    · exact AppealOutcome.noConfusion h
    · split at h
      · exact AppealOutcome.noConfusion h
      · split at h
        · exact AppealOutcome.noConfusion h
        · split at h
          · unfold confirmSubmit at h
            split at h
            · rename_i hkw
              exact absurd hkw (by decide)
            · exact AppealOutcome.noConfusion h
          · exact AppealOutcome.noConfusion h
          · exact AppealOutcome.noConfusion h

/-- Claim C6: a Review Record is produced if and only if all three
questions were answered within their limits and Submit was pressed.
REFUTED on the code: in this concrete run all three questions are
answered (the first two over the 5-character minimum) and Submit is
pressed, yet the submit callback raises TypeError at the
`AppealReviewView(bot_instance=...)` construction (bot.py 465 against the
`__init__(self, bot)` signature at 388) before the staff-channel send, so
no Review Record is posted. -/
theorem C6_submit_crashes_before_posting :
    (ask_question 5 false c6q1).isSome = true ∧
    (ask_question 5 false c6q2).isSome = true ∧
    (ask_question 0 true c6q3).isSome = true ∧
    start_appeal true 42 c6q1 c6q2 c6q3 ConfirmEvent.submitPressed =
      AppealOutcome.crashedBeforePost := by
  decide

/-- Every invocation of the approve flow aborts with AttributeError at the
`self.bot_ref` read before any check, parse or mutation. -/
theorem approveAppeal_always_attributeError (rec : Record) (bl : Blacklist) :
    approveAppeal rec bl = (ApproveRes.attributeError, rec, bl) := by
  unfold approveAppeal
  rw [if_pos (by decide)]

/-- Claim C8: approving an appeal removes the blacklist entry exactly
once, a second invocation failing as RecordMalformed.  REFUTED on the
code: pressing Approve on the Review Record for member 42 (blacklisted
with reason `abuse`) aborts with AttributeError at the `self.bot_ref`
read (bot.py 395 and 413; the constructor only assigns `self.bot`,
bot.py 390) before the footer is even examined, and the blacklist entry
survives untouched — the removal never happens at all. -/
theorem C8_approve_crashes_before_removal :
    approveAppeal (reviewRecord 42) [(42, strT ("abuse"))] =
      (ApproveRes.attributeError, reviewRecord 42, [(42, strT ("abuse"))]) ∧
    blacklistLookup (approveAppeal (reviewRecord 42) [(42, strT ("abuse"))]).2.2 42 =
      some (strT ("abuse")) := by
  decide
